import Mathlib

/-!
Shallow embedding of `src/logic/transaction.js` (the Lisk transaction core).

Conventions used throughout:

* JavaScript numbers that hold exact integers are modelled as `Int`.  Where
  the source performs raw double arithmetic (`trs.amount + trs.fee` in
  `undo`/`undoUnconfirmed`) or converts an exact bignum to a double
  (`.toNumber()` in `apply`/`applyUnconfirmed`), the correctly rounded
  result is modelled by `jsRound`.
* Byte buffers are `List Nat` with entries below 256; hex strings are
  decoded by `hexDecode` (the model of `new Buffer(s, 'hex')`).
* Node-style completion callbacks `cb(err, ...)` are modelled by returning
  the reported error (`Option String` / `VerifyResult`) next to the updated
  sender account.
* The external `AccountStore` (`this.scope.account.merge`) is modelled as an
  always-succeeding additive update of the balance fields together with the
  `blockId`/`round` attachments.
* External cryptography (SHA-256 and Ed25519) is passed in as the function
  parameters `H` and `edVerify`; the claims proved below hold for every
  choice of these functions.
-/

set_option maxRecDepth 10000

namespace Lisk

/-- Truthiness of an optional JavaScript string: `null`/`undefined` and the
empty string `''` are falsy, every other string is truthy. -/
def falsyStr : Option String → Bool
  | none => true
  | some s => s == ""

/-- Unit in the last place for the IEEE-754 binary64 format restricted to
nonnegative integers: spacing 1 up to `2 ^ 53`, then `2 ^ (log2 n - 52)`. -/
def ulpOf (n : Nat) : Nat :=
  if n ≤ 2 ^ 53 then 1 else 2 ^ (Nat.log2 n - 52)

/-- Round a natural number to the nearest binary64-representable integer,
ties to even mantissa. -/
def roundEven (n : Nat) : Nat :=
  let u := ulpOf n
  let q := n / u
  let r := n % u
  if 2 * r < u then q * u
  else if u < 2 * r then (q + 1) * u
  else if q % 2 = 0 then q * u else (q + 1) * u

/-- Correctly rounded conversion of an exact integer to a JavaScript number
(a binary64 double). -/
def jsRound (x : Int) : Int :=
  if x < 0 then -(roundEven x.natAbs : Int) else (roundEven x.natAbs : Int)

/-- Modelled from the spec: `helpers/bignum.js` is not under `src/`.  Its
`toNumber()` — used in `apply`/`applyUnconfirmed` after the exact `plus` —
converts the exact integer value of the bignum to the nearest double
(decimal conversion in JavaScript is correctly rounded). -/
def bignumToNumber (x : Int) : Int := jsRound x

/-- Raw JavaScript `+` on two integer-valued doubles, as used by
`undo`/`undoUnconfirmed` (`trs.amount + trs.fee`): IEEE-754 addition of two
representable values is the correctly rounded exact sum. -/
def jsAdd (a b : Int) : Int := jsRound (a + b)

/-- An integer that is exactly representable as a binary64 double. -/
def IsDoubleInt (n : Int) : Prop := jsRound n = n

instance (n : Int) : Decidable (IsDoubleInt n) :=
  inferInstanceAs (Decidable (jsRound n = n))

/-- Hexadecimal value of one character (`Buffer` hex parsing). -/
def hexVal (c : Char) : Nat :=
  if c.isDigit then c.toNat - '0'.toNat
  else if 'a' ≤ c ∧ c ≤ 'f' then c.toNat - 'a'.toNat + 10
  else if 'A' ≤ c ∧ c ≤ 'F' then c.toNat - 'A'.toNat + 10
  else 0

/-- Decode consecutive pairs of hex digits to bytes. -/
def hexPairs : List Char → List Nat
  | a :: b :: rest => (hexVal a * 16 + hexVal b) :: hexPairs rest
  | _ => []

/-- Model of `new Buffer(s, 'hex')` for well-formed hex strings. -/
def hexDecode (s : String) : List Nat := hexPairs s.toList

instance {ε α : Type} [DecidableEq ε] [DecidableEq α] : DecidableEq (Except ε α) :=
  fun a b =>
    match a, b with
    | .error x, .error y =>
      if h : x = y then .isTrue (by simp [h]) else .isFalse (by simp [h])
    | .error _, .ok _ => .isFalse (by simp)
    | .ok _, .error _ => .isFalse (by simp)
    | .ok x, .ok y =>
      if h : x = y then .isTrue (by simp [h]) else .isFalse (by simp [h])

/-- Decimal value of a digit string (the model of `bignum(s)` for the
well-formed, all-digit address strings the codec handles). -/
def decParse (cs : List Char) : Nat :=
  cs.foldl (fun acc c => acc * 10 + (c.toNat - '0'.toNat)) 0

/-- Model of `bignum(trs.recipientId.slice(0, -1))`: drop the single
trailing suffix character and read the rest as a decimal integer. -/
def addrValue (s : String) : Nat := decParse s.toList.dropLast

/-- Little-endian byte list of width `w` for a natural number. -/
def bytesLE (n w : Nat) : List Nat :=
  (List.range w).map (fun i => n / 256 ^ i % 256)

/-- Big-endian byte list of width `w` for a natural number (high bytes
first, zero-padded on the high end). -/
def bytesBE (n w : Nat) : List Nat := (bytesLE n w).reverse

/-- Four-byte little-endian two's-complement encoding of a 32-bit signed
value, as produced by `bb.writeInt` on the little-endian `ByteBuffer` the
source allocates (`new ByteBuffer(size, true)`). -/
def int32LE (x : Int) : List Nat := bytesLE (x % (2 ^ 32 : Int)).toNat 4

/-- Eight-byte little-endian encoding, as produced by `bb.writeLong` on the
little-endian `ByteBuffer` the source allocates. -/
def int64LE (x : Int) : List Nat := bytesLE (x % (2 ^ 64 : Int)).toNat 8

/-- Account state consumed from the external `AccountStore`.  The
`multisignatures` fields are `Option`al because the source distinguishes a
null list (`sender.multisignatures || ...`) from an empty one. -/
structure Account where
  address : String
  publicKey : String
  secondSignature : Bool
  secondPublicKey : String
  multisignatures : Option (List String)
  u_multisignatures : Option (List String)
  balance : Int
  u_balance : Int
  blockId : String
  round : Nat
deriving Repr, DecidableEq

/-- The containing block, as consumed by `apply`/`undo`. -/
structure Block where
  id : String
  height : Nat
deriving Repr, DecidableEq

/-- A transaction record.  `assetKeysgroup` models
`trs.asset.multisignature.keysgroup` (present only on multisignature
registrations); the other asset payload is owned by the handler. -/
structure Trs where
  type : Nat
  timestamp : Int
  senderPublicKey : String
  requesterPublicKey : Option String
  senderId : String
  recipientId : Option String
  amount : Int
  fee : Int
  signature : Option String
  signSignature : Option String
  signatures : Option (List String)
  blockId : String
  id : String
  assetKeysgroup : Option (List String)
deriving Repr, DecidableEq

/-- Capability set of a registered transaction-type handler
(`attachAssetType` requires each of these to be a function).  The stateful
capabilities are modelled by the error they report through their callback;
`getBytes` may return no bytes (`null`) or raise (`Except.error`). -/
structure Handler where
  getBytes : Trs → Bool → Bool → Except String (Option (List Nat))
  calculateFee : Trs → Account → Int
  verify : Trs → Account → Option String
  apply : Trs → Block → Account → Option String
  undo : Trs → Block → Account → Option String
  applyUnconfirmed : Trs → Account → Option String
  undoUnconfirmed : Trs → Account → Option String
  ready : Trs → Account → Bool

/-- The private `__private.types` registry: numeric type tag to handler. -/
abbrev Registry := Nat → Option Handler

/-- Modelled from the spec: `slots.delegates` (`delegates_per_round`) is
chain-configured, typically 101; `helpers/slots.js` is not under `src/`. -/
def slotsDelegates : Nat := 101

/-- Source private helper `calc(height)`: the round of a block height. -/
def calcRound (height : Nat) : Nat :=
  height / slotsDelegates + (if height % slotsDelegates > 0 then 1 else 0)

namespace Transaction

/-- Embedding of `Transaction.prototype.getBytes`
(src/logic/transaction.js:110).  The source allocates
`new ByteBuffer(len, true)` — a little-endian buffer — so `writeInt` and
`writeLong` serialize the timestamp and amount little-endian, while the
recipient field is copied byte-by-byte from the big-endian
`bignum(...).toBuffer({size: 8})` (modelled for address values below
`2 ^ 64`, which an 8-byte buffer can hold). -/
def getBytes (reg : Registry) (trs : Trs) (skipSignature skipSecondSignature : Bool) :
    Except String (List Nat) :=
  match reg trs.type with
  | none => .error ("Unknown transaction type " ++ toString trs.type)
  | some t =>
    match t.getBytes trs skipSignature skipSecondSignature with
    | .error e => .error e
    | .ok assetOpt =>
      let assetBytes := assetOpt.getD []
      let senderPK := hexDecode trs.senderPublicKey
      let requesterBytes : List Nat :=
        if falsyStr trs.requesterPublicKey = false then
          hexDecode (trs.requesterPublicKey.getD "")
        else []
      let recipientBytes : List Nat :=
        if falsyStr trs.recipientId = false then
          bytesBE (addrValue (trs.recipientId.getD "")) 8
        else List.replicate 8 0
      let sigBytes : List Nat :=
        if skipSignature = false ∧ falsyStr trs.signature = false then
          hexDecode (trs.signature.getD "")
        else []
      let sig2Bytes : List Nat :=
        if skipSecondSignature = false ∧ falsyStr trs.signSignature = false then
          hexDecode (trs.signSignature.getD "")
        else []
      .ok ([trs.type % 256] ++ int32LE trs.timestamp ++ senderPK ++ requesterBytes
        ++ recipientBytes ++ int64LE trs.amount ++ assetBytes ++ sigBytes ++ sig2Bytes)

end Transaction

/-- Modelled from the spec: `helpers/bignum.js` (`fromBuffer`) is not under
`src/`.  Per the spec's id formula
`decimal_string(u64_little_endian(first_8_bytes_reversed(digest)))`, the
byte buffer is read as a little-endian unsigned integer. -/
def bignumFromBuffer (bs : List Nat) : Nat :=
  bs.foldr (fun b acc => b + 256 * acc) 0

namespace Transaction

/-- Embedding of `Transaction.prototype.getHash`: SHA-256 (the external
`crypto` module) is the parameter `H`. -/
def getHash (H : List Nat → List Nat) (reg : Registry) (trs : Trs) :
    Except String (List Nat) :=
  (getBytes reg trs false false).map H

/-- Embedding of `Transaction.prototype.getId`
(src/logic/transaction.js:95): copy `hash[7 - i]` into an 8-byte buffer and
render `bignum.fromBuffer` of it in base 10. -/
def getId (H : List Nat → List Nat) (reg : Registry) (trs : Trs) :
    Except String String :=
  (getHash H reg trs).map (fun hash =>
    let temp := (List.range 8).map (fun i => hash.getD (7 - i) 0)
    toString (bignumFromBuffer temp))

/-- Embedding of `Transaction.prototype.verifyBytes`: Ed25519 verification
(the external `ed` module) over `SHA-256(bytes)` is the parameter
`edVerify hash signature publicKey`. -/
def verifyBytes (H : List Nat → List Nat)
    (edVerify : List Nat → List Nat → List Nat → Bool)
    (bytes : List Nat) (publicKey signature : String) : Bool :=
  edVerify (H bytes) (hexDecode signature) (hexDecode publicKey)

/-- Embedding of `Transaction.prototype.verifySignature`
(src/logic/transaction.js:423): unknown type raises; a falsy signature
returns `false` before any byte computation. -/
def verifySignature (H : List Nat → List Nat)
    (edVerify : List Nat → List Nat → List Nat → Bool)
    (reg : Registry) (trs : Trs) (publicKey : String) (signature : Option String) :
    Except String Bool :=
  match reg trs.type with
  | none => .error ("Unknown transaction type " ++ toString trs.type)
  | some _t =>
    if falsyStr signature = true then .ok false
    else
      match getBytes reg trs true true with
      | .error e => .error e
      | .ok bytes => .ok (verifyBytes H edVerify bytes publicKey (signature.getD ""))

/-- Embedding of `Transaction.prototype.verifySecondSignature`
(src/logic/transaction.js:442): like `verifySignature` but over
`getBytes(trs, false, true)`. -/
def verifySecondSignature (H : List Nat → List Nat)
    (edVerify : List Nat → List Nat → List Nat → Bool)
    (reg : Registry) (trs : Trs) (publicKey : String) (signature : Option String) :
    Except String Bool :=
  match reg trs.type with
  | none => .error ("Unknown transaction type " ++ toString trs.type)
  | some _t =>
    if falsyStr signature = true then .ok false
    else
      match getBytes reg trs false true with
      | .error e => .error e
      | .ok bytes => .ok (verifyBytes H edVerify bytes publicKey (signature.getD ""))

end Transaction

/-- The duplicate-elimination reduce of `verify` check 8
(src/logic/transaction.js:352): keep the first occurrence of each entry. -/
def jsDedup (l : List String) : List String :=
  l.foldl (fun p c => if c ∈ p then p else p ++ [c]) []

/-- Which array the local `multisignatures` variable of `verify` aliases:
the sender's confirmed list, the sender's unconfirmed list, or a freshly
constructed array. -/
inductive MsSource where
  | senderMs
  | senderUms
  | fresh
deriving Repr, DecidableEq

/-- Inner loop of the multisignature check (src/logic/transaction.js:385):
try every key for one signature, propagating a raised verification error;
the loop has no break, so a later raise wins over an earlier success. -/
def anyKeyVerifies (check : String → Except String Bool) :
    List String → Except String Bool
  | [] => .ok false
  | k :: rest =>
    match check k with
    | .error e => .error e
    | .ok b =>
      match anyKeyVerifies check rest with
      | .error e => .error e
      | .ok b2 => .ok (b || b2)

/-- Outer loop of the multisignature check (src/logic/transaction.js:382):
every signature must verify against some admissible key; the first failing
signature returns immediately. -/
def multisigLoop (check : String → String → Except String Bool)
    (keys : List String) : List String → Except String Bool
  | [] => .ok true
  | sg :: rest =>
    match anyKeyVerifies (fun k => check k sg) keys with
    | .error e => .error e
    | .ok true => multisigLoop check keys rest
    | .ok false => .ok false

/-- Check 11 of `verify` (src/logic/transaction.js:408): the amount is
rejected when it is negative, exceeds `constants.totalAmount`, or its
JavaScript string representation contains a decimal point or the character
`e`. -/
def amountCheckFails (totalAmount val : ℚ) (str : String) : Bool :=
  decide (val < 0) || decide (totalAmount < val) || str.toList.contains '.'
    || str.toList.contains 'e'

/-- JavaScript `String(n)` for an integer-valued double: for magnitudes
below `10 ^ 21` this is the plain decimal numeral (no point, no exponent);
the model is used in that range only. -/
def jsIntStr (n : Int) : String := toString n

/-- Outcome of `Transaction.prototype.verify`: an error or success reported
through the completion callback, or a raised exception (`crash`). -/
inductive VerifyResult where
  | err (e : String)
  | ok
  | crash
deriving Repr, DecidableEq

namespace Transaction

/-- Checks 10–13 of `Transaction.prototype.verify`
(src/logic/transaction.js:401): fee (`calculateFee(...) || false`, so a
zero fee is falsy and always fails), amount, timestamp, handler verify.
`s2` is the sender as it stands after the multisignature determination
(possibly mutated by the push of check 9). -/
def verifyTail (t : Handler) (totalAmount : Int) (slotOf : Int → Int)
    (nowSlot : Int) (trs : Trs) (s2 : Account) : VerifyResult × Option Account :=
  let fee := t.calculateFee trs s2
  if fee = 0 ∨ trs.fee ≠ fee then (.err "Invalid transaction fee", some s2)
  else if amountCheckFails (totalAmount : ℚ) (trs.amount : ℚ) (jsIntStr trs.amount) = true then
    (.err "Invalid transaction amount", some s2)
  else if slotOf trs.timestamp > nowSlot then
    (.err "Invalid transaction timestamp", some s2)
  else
    match t.verify trs s2 with
    | some e => (.err e, some s2)
    | none => (.ok, some s2)

/-- Embedding of `Transaction.prototype.verify`
(src/logic/transaction.js:270).  The returned account is the sender object
as verify leaves it: check 9 pushes `trs.senderPublicKey` onto the very
array `sender.multisignatures` (or `sender.u_multisignatures`) holds when
that array was selected as the co-signer set, so the sender is mutated. -/
def verify (reg : Registry) (exceptions : List String)
    (H : List Nat → List Nat) (edVerify : List Nat → List Nat → List Nat → Bool)
    (totalAmount : Int) (slotOf : Int → Int) (nowSlot : Int)
    (trs : Trs) (sender : Option Account) (requester : Option Account) :
    VerifyResult × Option Account :=
  match reg trs.type with
  | none => (.err ("Unknown transaction type " ++ toString trs.type), sender)
  | some t =>
  match sender with
  | none => (.err "Missing sender", none)
  | some s =>
  if s.publicKey ≠ trs.senderPublicKey ∧ trs.id ∉ exceptions then
    (.err "Invalid sender public key", some s)
  else if trs.senderId.toUpper ≠ s.address.toUpper then
    (.err "Invalid sender address", some s)
  else
  let reqT : Bool := !(falsyStr trs.requesterPublicKey)
  let rpk : String := trs.requesterPublicKey.getD ""
  -- check 5: a truthy requester with a null multisignature list raises
  -- (`indexOf` on undefined) in the source
  if reqT = true ∧ s.multisignatures = none then (.crash, some s)
  else if reqT = true ∧ rpk ∉ s.multisignatures.getD [] then
    (.err "Invalid requester public key", some s)
  else
  match (if reqT = true then verifySignature H edVerify reg trs rpk trs.signature
         else verifySignature H edVerify reg trs trs.senderPublicKey trs.signature) with
  | .error e => (.err e, some s)
  | .ok valid =>
  if valid = false then (.err "Failed to verify signature", some s)
  else
  let requesterSecond : Bool :=
    match requester with
    | some r => r.secondSignature
    | none => false
  let second : Option (Except String Bool) :=
    if reqT = false ∧ s.secondSignature = true then
      some (verifySecondSignature H edVerify reg trs s.secondPublicKey trs.signSignature)
    else if reqT = true ∧ requesterSecond = true then
      some (verifySecondSignature H edVerify reg trs
        ((requester.map Account.secondPublicKey).getD "") trs.signSignature)
    else none
  match second with
  | some (.error e) => (.err e, some s)
  | some (.ok false) => (.err "Failed to verify second signature", some s)
  | _ =>
  let sigs : List String := trs.signatures.getD []
  if (match trs.signatures with
      | some l => decide (l.length ≠ 0)
      | none => false) = true ∧ (jsDedup sigs).length ≠ sigs.length then
    (.err "Encountered duplicate signature in transaction", some s)
  else
  -- check 9: determine the co-signer set; `[]` is truthy in JavaScript, so
  -- the fallbacks fire only on a null field, and the keysgroup fallback
  -- only when the selected array is empty
  let pick : List String × MsSource :=
    match s.multisignatures with
    | some l => (l, MsSource.senderMs)
    | none =>
      match s.u_multisignatures with
      | some l => (l, MsSource.senderUms)
      | none => ([], MsSource.fresh)
  let pick2 : List String × MsSource :=
    if pick.1.length = 0 then
      match trs.assetKeysgroup with
      | some kg => (kg.map (fun k => k.drop 1), MsSource.fresh)
      | none => pick
    else pick
  let ms2 : List String := if reqT = true then pick2.1 ++ [trs.senderPublicKey] else pick2.1
  let s2 : Account :=
    if reqT = true then
      match pick2.2 with
      | MsSource.senderMs => { s with multisignatures := some ms2 }
      | MsSource.senderUms => { s with u_multisignatures := some ms2 }
      | MsSource.fresh => s
    else s
  let check : String → String → Except String Bool := fun k sg =>
    if reqT = true ∧ k = rpk then .ok false
    else verifySignature H edVerify reg trs k (some sg)
  -- `if (trs.signatures)` — any array, even an empty one, is truthy
  match trs.signatures with
  | some sigsl =>
    (match multisigLoop check ms2 sigsl with
     | .error _e => (.crash, some s2)
     | .ok false => (.err "Failed to verify multisignature", some s2)
     | .ok true => verifyTail t totalAmount slotOf nowSlot trs s2)
  | none => verifyTail t totalAmount slotOf nowSlot trs s2

/-- Embedding of `Transaction.prototype.apply`
(src/logic/transaction.js:483).  The balance check compares exact bignum
values; the merged delta is the `.toNumber()` conversion.  In the rollback
branch the completion is invoked with the rollback merge callback's own
error — `none` here, because the store merge is modelled as succeeding —
so the handler's error is not surfaced. -/
def apply (reg : Registry) (genesisId : String) (trs : Trs) (block : Block)
    (sender : Account) : Option String × Account :=
  match reg trs.type with
  | none => (some ("Unknown transaction type " ++ toString trs.type), sender)
  | some t =>
    if t.ready trs sender = false then (some "Transaction is not ready", sender)
    else
      let amountExact : Int := trs.amount + trs.fee
      let exceedsBalance : Bool := decide (sender.balance < amountExact)
      if trs.blockId ≠ genesisId ∧ exceedsBalance = true then
        (some ("Account has no LISK: " ++ sender.address ++ " balance="
          ++ toString sender.balance), sender)
      else
        let amount := bignumToNumber amountExact
        let s1 : Account := { sender with
          balance := sender.balance - amount
          blockId := block.id
          round := calcRound block.height }
        match t.apply trs block s1 with
        | none => (none, s1)
        | some _e =>
          let s2 : Account := { s1 with
            balance := s1.balance + amount
            blockId := block.id
            round := calcRound block.height }
          (none, s2)

/-- Embedding of `Transaction.prototype.undo`
(src/logic/transaction.js:526).  `amount` is raw JavaScript addition.  The
source credits `amount` in the first merge and credits `amount` again in
the rollback branch (it does not negate), and the completion receives the
rollback merge callback's own error (`none` when the merge succeeds). -/
def undo (reg : Registry) (trs : Trs) (block : Block) (sender : Account) :
    Option String × Account :=
  match reg trs.type with
  | none => (some ("Unknown transaction type " ++ toString trs.type), sender)
  | some t =>
    let amount := jsAdd trs.amount trs.fee
    let s1 : Account := { sender with
      balance := sender.balance + amount
      blockId := block.id
      round := calcRound block.height }
    match t.undo trs block s1 with
    | none => (none, s1)
    | some _e =>
      let s2 : Account := { s1 with
        balance := s1.balance + amount
        blockId := block.id
        round := calcRound block.height }
      (none, s2)

/-- Embedding of `Transaction.prototype.applyUnconfirmed`
(src/logic/transaction.js:558): the four second-signature pre-checks run
before any merge; the rollback branch reports `err2 || err`, i.e. the
handler's error when the rollback merge succeeds. -/
def applyUnconfirmed (reg : Registry) (genesisId : String) (trs : Trs)
    (sender : Account) (requester : Option Account) : Option String × Account :=
  match reg trs.type with
  | none => (some ("Unknown transaction type " ++ toString trs.type), sender)
  | some t =>
    let reqT : Bool := !(falsyStr trs.requesterPublicKey)
    let signPresent : Bool :=
      match trs.signSignature with
      | some ss => decide (ss.length > 0)
      | none => false
    let requesterSecond : Bool :=
      match requester with
      | some r => r.secondSignature
      | none => false
    if reqT = false ∧ sender.secondSignature = true ∧ falsyStr trs.signSignature = true
        ∧ trs.blockId ≠ genesisId then
      (some "Missing sender second signature", sender)
    else if reqT = false ∧ sender.secondSignature = false ∧ signPresent = true then
      (some "Sender does not have a second signature", sender)
    else if reqT = true ∧ requesterSecond = true ∧ falsyStr trs.signSignature = true then
      (some "Missing requester second signature", sender)
    else if reqT = true ∧ requesterSecond = false ∧ signPresent = true then
      (some "Requester does not have a second signature", sender)
    else
      let amountExact : Int := trs.amount + trs.fee
      if trs.blockId ≠ genesisId ∧ sender.u_balance < amountExact then
        (some ("Account has no LISK: " ++ sender.address ++ " balance="
          ++ toString sender.u_balance), sender)
      else
        let amount := bignumToNumber amountExact
        let s1 : Account := { sender with u_balance := sender.u_balance - amount }
        match t.applyUnconfirmed trs s1 with
        | none => (none, s1)
        | some e =>
          let s2 : Account := { s1 with u_balance := s1.u_balance + amount }
          (some e, s2)

/-- Embedding of `Transaction.prototype.undoUnconfirmed`
(src/logic/transaction.js:609): credit `amount`, run the handler, and on
handler error merge `-amount` back and report `err2 || err`. -/
def undoUnconfirmed (reg : Registry) (trs : Trs) (sender : Account) :
    Option String × Account :=
  match reg trs.type with
  | none => (some ("Unknown transaction type " ++ toString trs.type), sender)
  | some t =>
    let amount := jsAdd trs.amount trs.fee
    let s1 : Account := { sender with u_balance := sender.u_balance + amount }
    match t.undoUnconfirmed trs s1 with
    | none => (none, s1)
    | some e =>
      let s2 : Account := { s1 with u_balance := s1.u_balance - amount }
      (some e, s2)

end Transaction

/-! Concrete material used by the example-level theorems. -/

/-- A neutral handler used to assemble the concrete examples: empty asset
bytes, fee 1, always ready, every stateful capability succeeds. -/
def trivHandler : Handler where
  getBytes := fun _ _ _ => .ok none
  calculateFee := fun _ _ => 1
  verify := fun _ _ => none
  apply := fun _ _ _ => none
  undo := fun _ _ _ => none
  applyUnconfirmed := fun _ _ => none
  undoUnconfirmed := fun _ _ => none
  ready := fun _ _ => true

/-- A registry holding one handler at type tag 1. -/
def regOf (h : Handler) : Registry := fun ty => if ty = 1 then some h else none

/-- A degenerate stand-in for the SHA-256 parameter. -/
def hZero : List Nat → List Nat := fun _ => []

/-- An Ed25519 verifier that accepts everything. -/
def edTrue : List Nat → List Nat → List Nat → Bool := fun _ _ _ => true

/-- A base account: no second signature, no multisignatures, balance 100. -/
def baseAccount : Account where
  address := "16313739661670634666L"
  publicKey := "aa"
  secondSignature := false
  secondPublicKey := "dd"
  multisignatures := none
  u_multisignatures := none
  balance := 100
  u_balance := 100
  blockId := "0"
  round := 0

/-- A base type-1 transaction from `baseAccount`, amount 50, fee 10. -/
def baseTrs : Trs where
  type := 1
  timestamp := 0
  senderPublicKey := "aa"
  requesterPublicKey := none
  senderId := "16313739661670634666L"
  recipientId := none
  amount := 50
  fee := 10
  signature := some "bb"
  signSignature := none
  signatures := none
  blockId := "b2"
  id := "123"
  assetKeysgroup := none

/-- A block at height 5. -/
def blockEx : Block where
  id := "b2"
  height := 5

/-- Handler whose confirmed `apply` fails (used for claim C1). -/
def handlerC1 : Handler := { trivHandler with apply := fun _ _ _ => some "handler failure" }

/-- Handler whose confirmed `undo` fails (used for claim C2). -/
def handlerC2 : Handler := { trivHandler with undo := fun _ _ _ => some "handler failure" }

/-- Handler whose `calculateFee` is zero (used for claim C4). -/
def handlerC4 : Handler := { trivHandler with calculateFee := fun _ _ => 0 }

/-- Handler whose `calculateFee` is 7 (used for the claim C4 witness). -/
def handlerC4w : Handler := { trivHandler with calculateFee := fun _ _ => 7 }

/-- Handler whose `calculateFee` is 7 (used for the claim C7 witness). -/
def handlerC7 : Handler := { trivHandler with calculateFee := fun _ _ => 7 }

/-- A 64-hex-character (32-byte) public key string. -/
def pk64 : String := String.mk (List.replicate 64 '1')

/-- A 128-hex-character (64-byte) signature string. -/
def sig128 : String := String.mk (List.replicate 128 '0')

/-- Concrete transaction for the claim C5 byte-layout example: timestamp 1,
amount 3, recipient address value 5, 32-byte key, 64-byte signature. -/
def trsC5 : Trs := { baseTrs with
  senderPublicKey := pk64
  timestamp := 1
  amount := 3
  recipientId := some "5L"
  signature := some sig128 }

/-- Byte layout asserted by the specification for the no-asset, no-requester
case, written from the spec's words for comparison with
`Transaction.getBytes`: 1-byte type, 4-byte big-endian signed timestamp,
32-byte sender public key, 8-byte big-endian recipient field, 8-byte
big-endian amount, 64-byte signature. -/
def specTransferBytes (trs : Trs) : List Nat :=
  [trs.type % 256] ++ (int32LE trs.timestamp).reverse ++ hexDecode trs.senderPublicKey
  ++ (match trs.recipientId with
      | some rid => bytesBE (addrValue rid) 8
      | none => List.replicate 8 0)
  ++ (int64LE trs.amount).reverse ++ hexDecode (trs.signature.getD "")

/-- Byte layout the source actually produces in the no-asset, no-requester
case: as `specTransferBytes` but with the timestamp and the amount
little-endian (the source's `ByteBuffer` is little-endian). -/
def transferLayout (trs : Trs) (sg : String) : List Nat :=
  [trs.type % 256] ++ int32LE trs.timestamp ++ hexDecode trs.senderPublicKey
  ++ (match trs.recipientId with
      | some rid => bytesBE (addrValue rid) 8
      | none => List.replicate 8 0)
  ++ int64LE trs.amount ++ hexDecode sg

/-- A stand-in for the SHA-256 parameter whose digest is the 32 bytes
`0, 1, ..., 31`. -/
def hRange32 : List Nat → List Nat := fun _ => List.range 32

/-- The canonical bytes of `baseTrs` (computed for the claim C6 witness). -/
def bytesC6 : List Nat :=
  [1] ++ int32LE 0 ++ hexDecode "aa" ++ List.replicate 8 0 ++ int64LE 50 ++ hexDecode "bb"

/-- Transaction with fee 0 (used for claim C4: the handler-calculated fee
is also 0, so the fee matches, yet the check fails). -/
def trsC4 : Trs := { baseTrs with fee := 0 }

/-- Transaction with fee 7, matching `handlerC4w` (claim C4 witness). -/
def trsC4w : Trs := { baseTrs with fee := 7 }

/-- Transaction with fee 7 and amount 42, matching `handlerC7` (claim C7
witness). -/
def trsC7 : Trs := { baseTrs with fee := 7, amount := 42 }

/-- Sender account whose confirmed multisignature list is `["rr"]` (claim
C10). -/
def senderC10 : Account := { baseAccount with multisignatures := some ["rr"] }

/-- Transaction submitted by requester `"rr"` (claim C10). -/
def trsC10 : Trs := { baseTrs with requesterPublicKey := some "rr" }

/-! Theorems. -/

theorem bytesLE_length (n w : Nat) : (bytesLE n w).length = w := by
  simp [bytesLE]

theorem bytesBE_length (n w : Nat) : (bytesBE n w).length = w := by
  simp [bytesBE, bytesLE_length]

theorem int32LE_length (x : Int) : (int32LE x).length = 4 := bytesLE_length _ _

theorem int64LE_length (x : Int) : (int64LE x).length = 8 := bytesLE_length _ _

/-- C1: at a concrete ready, funded transaction of a registered type whose
handler `apply` reports an error, `Transaction.apply` does reverse the
balance merge (the sender's balance shows no net change), but it completes
with the rollback merge callback's error — `none`, since the merge
succeeds — instead of the handler's error, so the caller observes success
rather than the handler's error. -/
theorem apply_rollback_drops_handler_error :
    (Transaction.apply (regOf handlerC1) "genesis" baseTrs blockEx baseAccount).1 = none ∧
    (Transaction.apply (regOf handlerC1) "genesis" baseTrs blockEx baseAccount).2.balance
      = baseAccount.balance := by
  decide

/-- C2: at a concrete transaction of a registered type whose handler `undo`
reports an error, `Transaction.undo` completes without the handler's error
and its rollback branch credits `amount + fee` a second time instead of
reversing the credit: the sender's balance ends `2 * (amount + fee)` above
its value before `undo`, not equal to it. -/
theorem undo_rollback_credits_again :
    (Transaction.undo (regOf handlerC2) baseTrs blockEx baseAccount).1 = none ∧
    (Transaction.undo (regOf handlerC2) baseTrs blockEx baseAccount).2.balance
      = baseAccount.balance + 120 := by
  decide

/-- C3: for a registered, ready, funded transaction whose handler `apply`
and `undo` succeed, with amount and fee integers in `[0, TOTAL_SUPPLY]`
(exactly representable as doubles), running `apply` and then `undo`
restores the sender's balance exactly: the debit `apply` merges (the
`toNumber` conversion of the exact `amount + fee`) equals the credit `undo`
merges (the raw double addition `amount + fee`), both being the correctly
rounded exact sum. -/
theorem apply_undo_roundtrip (reg : Registry) (t : Handler) (gid : String)
    (total : Int) (trs : Trs) (block : Block) (sender : Account)
    (hreg : reg trs.type = some t)
    (hready : t.ready trs sender = true)
    (hA : ∀ b a, t.apply trs b a = none)
    (hU : ∀ b a, t.undo trs b a = none)
    (ha0 : 0 ≤ trs.amount) (ha1 : trs.amount ≤ total)
    (hf0 : 0 ≤ trs.fee) (hf1 : trs.fee ≤ total)
    (hda : IsDoubleInt trs.amount) (hdf : IsDoubleInt trs.fee)
    (hbal : trs.blockId = gid ∨ ¬ sender.balance < trs.amount + trs.fee) :
    (Transaction.apply reg gid trs block sender).1 = none ∧
    (Transaction.undo reg trs block (Transaction.apply reg gid trs block sender).2).1 = none ∧
    (Transaction.undo reg trs block (Transaction.apply reg gid trs block sender).2).2.balance
      = sender.balance := by
  have happly : Transaction.apply reg gid trs block sender =
      (none, { sender with
        balance := sender.balance - bignumToNumber (trs.amount + trs.fee)
        blockId := block.id
        round := calcRound block.height }) := by
    rcases hbal with h | h <;>
      simp [Transaction.apply, hreg, hready, hA, h]
  have hundo : ∀ a : Account, Transaction.undo reg trs block a =
      (none, { a with
        balance := a.balance + jsAdd trs.amount trs.fee
        blockId := block.id
        round := calcRound block.height }) := by
    intro a
    simp [Transaction.undo, hreg, hU]
  refine ⟨by simp [happly], by simp [happly, hundo], ?_⟩
  rw [happly, hundo]
  simp [bignumToNumber, jsAdd]

/-- C3 witness: the round trip at a concrete registered transaction. -/
theorem apply_undo_roundtrip_witness :
    (Transaction.apply (regOf trivHandler) "genesis" baseTrs blockEx baseAccount).1 = none ∧
    (Transaction.undo (regOf trivHandler) baseTrs blockEx
      (Transaction.apply (regOf trivHandler) "genesis" baseTrs blockEx baseAccount).2).1 = none ∧
    (Transaction.undo (regOf trivHandler) baseTrs blockEx
      (Transaction.apply (regOf trivHandler) "genesis" baseTrs blockEx baseAccount).2).2.balance
      = baseAccount.balance :=
  apply_undo_roundtrip (regOf trivHandler) trivHandler "genesis" 10999999991000000
    baseTrs blockEx baseAccount rfl rfl (fun _ _ => rfl) (fun _ _ => rfl)
    (by decide) (by decide) (by decide) (by decide) (by decide) (by decide)
    (Or.inr (by decide))

/-- C8: for a registered transaction with no requester public key,
`applyUnconfirmed` fails with "Missing sender second signature" when the
sender has a second signature, the transaction carries none and its block
is not the genesis block, and fails with "Sender does not have a second
signature" when the sender has no second signature but a non-empty
`signSignature` is present — in both cases before any merge, so the
returned sender (and its `u_balance`) is unchanged. -/
theorem applyUnconfirmed_second_signature_prechecks
    (reg : Registry) (t : Handler) (gid : String) (trs : Trs) (sender : Account)
    (requester : Option Account)
    (hreg : reg trs.type = some t)
    (hreq : trs.requesterPublicKey = none) :
    (sender.secondSignature = true → trs.signSignature = none → trs.blockId ≠ gid →
      Transaction.applyUnconfirmed reg gid trs sender requester
        = (some "Missing sender second signature", sender)) ∧
    (sender.secondSignature = false → ∀ ss, trs.signSignature = some ss → ss ≠ "" →
      Transaction.applyUnconfirmed reg gid trs sender requester
        = (some "Sender does not have a second signature", sender)) := by
  constructor
  · intro h1 h2 h3
    simp [Transaction.applyUnconfirmed, hreg, hreq, falsyStr, h1, h2, h3]
  · intro h1 ss h2 h3
    have hlen : 0 < ss.length := by
      cases hss : ss.data with
      | nil => exact absurd (by cases ss; simp_all) h3
      | cons c cs => simp [String.length, hss]
    simp [Transaction.applyUnconfirmed, hreg, hreq, falsyStr, h1, h2, h3, hlen]

/-- C8 witness: both failure branches at concrete inputs. -/
theorem applyUnconfirmed_second_signature_prechecks_witness :
    Transaction.applyUnconfirmed (regOf trivHandler) "genesis" baseTrs
        { baseAccount with secondSignature := true } none
      = (some "Missing sender second signature",
          { baseAccount with secondSignature := true }) ∧
    Transaction.applyUnconfirmed (regOf trivHandler) "genesis"
        { baseTrs with signSignature := some "cc" } baseAccount none
      = (some "Sender does not have a second signature", baseAccount) :=
  ⟨(applyUnconfirmed_second_signature_prechecks (regOf trivHandler) trivHandler
      "genesis" baseTrs { baseAccount with secondSignature := true } none rfl rfl).1
      rfl rfl (by decide),
   (applyUnconfirmed_second_signature_prechecks (regOf trivHandler) trivHandler
      "genesis" { baseTrs with signSignature := some "cc" } baseAccount none rfl rfl).2
      rfl "cc" rfl (by decide)⟩

/-- C9: for every transaction of a registered type and every public key,
`verifySignature` and `verifySecondSignature` return `false` — and do not
raise — whenever the signature argument is missing or empty, for every
hash function and Ed25519 verifier. -/
theorem verify_signature_falsy_returns_false
    (H : List Nat → List Nat) (ed : List Nat → List Nat → List Nat → Bool)
    (reg : Registry) (t : Handler) (trs : Trs) (pk : String) (sig : Option String)
    (hreg : reg trs.type = some t)
    (hsig : sig = none ∨ sig = some "") :
    Transaction.verifySignature H ed reg trs pk sig = .ok false ∧
    Transaction.verifySecondSignature H ed reg trs pk sig = .ok false := by
  have hf : falsyStr sig = true := by rcases hsig with h | h <;> simp [h, falsyStr]
  exact ⟨by simp [Transaction.verifySignature, hreg, hf],
    by simp [Transaction.verifySecondSignature, hreg, hf]⟩

/-- C9 witness: a missing and an empty signature at a concrete registered
transaction. -/
theorem verify_signature_falsy_returns_false_witness :
    Transaction.verifySignature hZero edTrue (regOf trivHandler) baseTrs "aa" none
      = .ok false ∧
    Transaction.verifySecondSignature hZero edTrue (regOf trivHandler) baseTrs "aa"
      (some "") = .ok false :=
  ⟨(verify_signature_falsy_returns_false hZero edTrue (regOf trivHandler) trivHandler
      baseTrs "aa" none rfl (Or.inl rfl)).1,
   (verify_signature_falsy_returns_false hZero edTrue (regOf trivHandler) trivHandler
      baseTrs "aa" (some "") rfl (Or.inr rfl)).2⟩

/-- C5 counterexample: at a concrete registered transaction with no
requester, empty asset bytes, a 64-byte signature and no second signature,
the bytes `getBytes` produces are not the claimed layout with big-endian
timestamp and amount (the source's `ByteBuffer` is little-endian), though
their total length is indeed 117. -/
theorem getBytes_not_spec_layout :
    Transaction.getBytes (regOf trivHandler) trsC5 false false
      ≠ .ok (specTransferBytes trsC5) ∧
    (Transaction.getBytes (regOf trivHandler) trsC5 false false).map List.length
      = .ok 117 := by
  decide

/-- C5 amended: for a registered transaction with no requester, empty
handler asset bytes, a 64-byte signature and no second signature, the
canonical bytes are exactly 117 bytes: 1-byte type, 4-byte little-endian
signed timestamp, 32-byte sender public key, 8-byte big-endian recipient
field (the recipient address without its trailing suffix character as a
decimal integer, zero-padded on the high end; all zero when absent),
8-byte little-endian amount, 64-byte signature. -/
theorem getBytes_transfer_layout
    (reg : Registry) (t : Handler) (trs : Trs) (sg : String)
    (hreg : reg trs.type = some t)
    (hasset : t.getBytes trs false false = .ok none)
    (hreq : trs.requesterPublicKey = none)
    (hpk : (hexDecode trs.senderPublicKey).length = 32)
    (hsg : trs.signature = some sg) (hsgne : sg ≠ "")
    (hsig64 : (hexDecode sg).length = 64)
    (hss : trs.signSignature = none)
    (hrec : ∀ rid, trs.recipientId = some rid →
      rid ≠ "" ∧ addrValue rid < 2 ^ 64) :
    Transaction.getBytes reg trs false false = .ok (transferLayout trs sg) ∧
    (transferLayout trs sg).length = 117 := by
  have hbeq : (sg == "") = false := beq_eq_false_iff_ne.mpr hsgne
  constructor
  · rcases hrid : trs.recipientId with _ | rid
    · simp [Transaction.getBytes, hreg, hasset, hreq, hss, hsg, hrid,
        transferLayout, falsyStr, hbeq]
    · have hne : rid ≠ "" := (hrec rid hrid).1
      have hbeq2 : (rid == "") = false := beq_eq_false_iff_ne.mpr hne
      simp [Transaction.getBytes, hreg, hasset, hreq, hss, hsg, hrid,
        transferLayout, falsyStr, hbeq, hbeq2]
  · rcases hrid : trs.recipientId with _ | rid <;>
      simp [transferLayout, hrid, hpk, hsig64, int32LE_length, int64LE_length,
        bytesBE_length]

/-- C5 witness: the amended layout at the concrete transaction. -/
theorem getBytes_transfer_layout_witness :
    Transaction.getBytes (regOf trivHandler) trsC5 false false
      = .ok (transferLayout trsC5 sig128) ∧
    (transferLayout trsC5 sig128).length = 117 :=
  getBytes_transfer_layout (regOf trivHandler) trivHandler trsC5 sig128 rfl rfl rfl
    (by decide) rfl (by decide) (by decide) rfl
    (by
      intro rid h
      rw [show trsC5.recipientId = some "5L" from rfl] at h
      injection h with h2
      subst h2
      exact ⟨by decide, by decide⟩)

theorem range8_map_getD (l : List Nat) (h : 8 ≤ l.length) :
    (List.range 8).map (fun i => l.getD (7 - i) 0) = (l.take 8).reverse := by
  rcases l with _ | ⟨a0, l⟩
  · simp at h
  rcases l with _ | ⟨a1, l⟩
  · simp at h
  rcases l with _ | ⟨a2, l⟩
  · simp at h
  rcases l with _ | ⟨a3, l⟩
  · simp at h
  rcases l with _ | ⟨a4, l⟩
  · simp at h
  rcases l with _ | ⟨a5, l⟩
  · simp at h
  rcases l with _ | ⟨a6, l⟩
  · simp at h
  rcases l with _ | ⟨a7, l⟩
  · simp at h
  rfl

theorem bignumFromBuffer_lt (l : List Nat) (h : ∀ b ∈ l, b < 256) :
    bignumFromBuffer l < 256 ^ l.length := by
  induction l with
  | nil => simp [bignumFromBuffer]
  | cons b rest ih =>
    have hb : b < 256 := h b (by simp)
    have hr : bignumFromBuffer rest < 256 ^ rest.length :=
      ih (fun x hx => h x (by simp [hx]))
    have hstep : bignumFromBuffer (b :: rest) = b + 256 * bignumFromBuffer rest := rfl
    have h2 : 256 * (bignumFromBuffer rest + 1) ≤ 256 * 256 ^ rest.length :=
      Nat.mul_le_mul_left 256 hr
    have h3 : (256 : ℕ) ^ (rest.length + 1) = 256 * 256 ^ rest.length := by ring
    rw [hstep, List.length_cons, h3]
    omega

/-- C6: for every hash function (in the source, SHA-256) and every
registered transaction whose canonical bytes are defined, `getId` returns
the base-10 decimal string of the unsigned 64-bit integer obtained by
taking bytes 0..7 of the digest of the canonical bytes, reversing them,
and reading the reversed 8 bytes as a little-endian unsigned integer
(`bignumFromBuffer`); the value is below `2 ^ 64`. -/
theorem getId_decimal_of_reversed_first8
    (H : List Nat → List Nat) (reg : Registry) (trs : Trs) (bytes : List Nat)
    (hb : Transaction.getBytes reg trs false false = .ok bytes)
    (hlen : (H bytes).length = 32)
    (hbyte : ∀ b ∈ H bytes, b < 256) :
    Transaction.getId H reg trs
      = .ok (toString (bignumFromBuffer ((H bytes).take 8).reverse)) ∧
    bignumFromBuffer ((H bytes).take 8).reverse < 2 ^ 64 := by
  constructor
  · simp only [Transaction.getId, Transaction.getHash, hb, Except.map]
    rw [range8_map_getD (H bytes) (by omega)]
  · have h1 : ∀ b ∈ ((H bytes).take 8).reverse, b < 256 := by
      intro b hbm
      exact hbyte b (List.take_subset 8 (H bytes) (List.mem_reverse.mp hbm))
    have h2 := bignumFromBuffer_lt _ h1
    have h3 : (((H bytes).take 8).reverse).length = 8 := by
      simp [List.length_take, hlen]
    rw [h3] at h2
    calc bignumFromBuffer ((H bytes).take 8).reverse < 256 ^ 8 := h2
      _ = 2 ^ 64 := by norm_num

/-- C6 witness: the id at a concrete registered transaction with digest
bytes `0..31`. -/
theorem getId_decimal_of_reversed_first8_witness :
    Transaction.getId hRange32 (regOf trivHandler) baseTrs
      = .ok (toString (bignumFromBuffer ((List.range 32).take 8).reverse)) ∧
    bignumFromBuffer ((List.range 32).take 8).reverse < 2 ^ 64 :=
  getId_decimal_of_reversed_first8 hRange32 (regOf trivHandler) baseTrs bytesC6
    (by decide) (by decide) (by decide)

/-- Reduction of `verify` for a request without requester public key whose
checks 1–9 pass: the pipeline reaches the fee/amount/timestamp/handler
tail with the sender unchanged. -/
theorem verify_no_requester_reduces
    (reg : Registry) (t : Handler) (exceptions : List String)
    (H : List Nat → List Nat) (ed : List Nat → List Nat → List Nat → Bool)
    (total : Int) (slotOf : Int → Int) (nowSlot : Int)
    (trs : Trs) (s : Account) (requester : Option Account)
    (hreg : reg trs.type = some t)
    (hpk : s.publicKey = trs.senderPublicKey)
    (haddr : trs.senderId.toUpper = s.address.toUpper)
    (hreqn : trs.requesterPublicKey = none)
    (hsig : Transaction.verifySignature H ed reg trs trs.senderPublicKey trs.signature
      = .ok true)
    (hsec : s.secondSignature = false)
    (hsigs : trs.signatures = none) :
    Transaction.verify reg exceptions H ed total slotOf nowSlot trs (some s) requester
      = Transaction.verifyTail t total slotOf nowSlot trs s := by
  simp [Transaction.verify, hreg, hpk, haddr, hreqn, hsig, hsec, hsigs, falsyStr]

/-- The fee error of the verify tail occurs exactly when the calculated fee
is zero (falsy) or differs from `trs.fee`. -/
theorem verifyTail_fee_err (t : Handler) (total : Int) (slotOf : Int → Int)
    (nowSlot : Int) (trs : Trs) (s : Account)
    (hhv : t.verify trs s ≠ some "Invalid transaction fee") :
    ((Transaction.verifyTail t total slotOf nowSlot trs s).1
        = .err "Invalid transaction fee"
      ↔ (t.calculateFee trs s = 0 ∨ trs.fee ≠ t.calculateFee trs s)) := by
  simp only [Transaction.verifyTail]
  by_cases hc : t.calculateFee trs s = 0 ∨ trs.fee ≠ t.calculateFee trs s
  · simp [hc]
  · rw [if_neg hc]
    constructor
    · intro hcontra
      exfalso
      split at hcontra
      · simp_all
      split at hcontra
      · simp_all
      split at hcontra <;> simp_all
    · intro h
      exact absurd h hc

/-- C4 counterexample: a concrete transaction whose fee equals the
handler-calculated fee — both are 0 — is still rejected with "Invalid
transaction fee", because `calculateFee(...) || false` coerces a zero fee
to a failure. -/
theorem fee_check_rejects_matching_zero_fee :
    trsC4.fee = handlerC4.calculateFee trsC4 baseAccount ∧
    (Transaction.verify (regOf handlerC4) [] hZero edTrue 10999999991000000
        (fun _ => 0) 0 trsC4 (some baseAccount) none).1
      = .err "Invalid transaction fee" := by
  constructor
  · rfl
  · rw [verify_no_requester_reduces (regOf handlerC4) handlerC4 [] hZero edTrue
      10999999991000000 (fun _ => 0) 0 trsC4 baseAccount none rfl rfl rfl rfl
      (by decide) rfl rfl]
    decide

/-- C4 amended: for a transaction without requester whose checks 1–9 pass
and whose handler-specific verify does not itself produce the fee-error
string, `verify` fails with "Invalid transaction fee" iff the
handler-calculated fee is zero (falsy) or `trs.fee` differs from it; in
particular the fee check passes exactly when the calculated fee is nonzero
and `trs.fee` equals it. -/
theorem fee_check_iff
    (reg : Registry) (t : Handler) (exceptions : List String)
    (H : List Nat → List Nat) (ed : List Nat → List Nat → List Nat → Bool)
    (total : Int) (slotOf : Int → Int) (nowSlot : Int)
    (trs : Trs) (s : Account) (requester : Option Account)
    (hreg : reg trs.type = some t)
    (hpk : s.publicKey = trs.senderPublicKey)
    (haddr : trs.senderId.toUpper = s.address.toUpper)
    (hreqn : trs.requesterPublicKey = none)
    (hsig : Transaction.verifySignature H ed reg trs trs.senderPublicKey trs.signature
      = .ok true)
    (hsec : s.secondSignature = false)
    (hsigs : trs.signatures = none)
    (hhv : t.verify trs s ≠ some "Invalid transaction fee") :
    ((Transaction.verify reg exceptions H ed total slotOf nowSlot trs (some s) requester).1
        = .err "Invalid transaction fee"
      ↔ (t.calculateFee trs s = 0 ∨ trs.fee ≠ t.calculateFee trs s)) := by
  rw [verify_no_requester_reduces reg t exceptions H ed total slotOf nowSlot trs s
    requester hreg hpk haddr hreqn hsig hsec hsigs]
  exact verifyTail_fee_err t total slotOf nowSlot trs s hhv

/-- C4 witness: with a nonzero calculated fee equal to `trs.fee`, the fee
check passes at a concrete input. -/
theorem fee_check_iff_witness :
    ((Transaction.verify (regOf handlerC4w) [] hZero edTrue 10999999991000000
        (fun _ => 0) 0 trsC4w (some baseAccount) none).1
        = .err "Invalid transaction fee"
      ↔ (handlerC4w.calculateFee trsC4w baseAccount = 0
          ∨ trsC4w.fee ≠ handlerC4w.calculateFee trsC4w baseAccount)) :=
  fee_check_iff (regOf handlerC4w) handlerC4w [] hZero edTrue 10999999991000000
    (fun _ => 0) 0 trsC4w baseAccount none rfl rfl rfl rfl (by decide) rfl rfl
    (by decide)

/-- The amount error of the verify tail, when the fee check passes, occurs
exactly when `amountCheckFails` holds of the amount and its string
representation. -/
theorem verifyTail_amount_err (t : Handler) (total : Int) (slotOf : Int → Int)
    (nowSlot : Int) (trs : Trs) (s : Account)
    (hfee : t.calculateFee trs s ≠ 0) (hfeeq : trs.fee = t.calculateFee trs s)
    (hhv : t.verify trs s ≠ some "Invalid transaction amount") :
    ((Transaction.verifyTail t total slotOf nowSlot trs s).1
        = .err "Invalid transaction amount"
      ↔ amountCheckFails (total : ℚ) (trs.amount : ℚ) (jsIntStr trs.amount) = true) := by
  simp only [Transaction.verifyTail]
  rw [if_neg (by simp [hfee, hfeeq])]
  by_cases ha : amountCheckFails (total : ℚ) (trs.amount : ℚ) (jsIntStr trs.amount) = true
  · simp [ha]
  · rw [if_neg ha]
    constructor
    · intro hcontra
      exfalso
      split at hcontra
      · simp_all
      split at hcontra <;> simp_all
    · intro h
      exact absurd h ha

/-- C7: for a transaction without requester whose checks 1–10 pass and
whose handler verify does not itself produce the amount-error string,
`verify` fails with "Invalid transaction amount" exactly when the amount
check fires; the check fires exactly when the amount is negative, exceeds
the total supply, or its string representation contains a decimal point or
the character `e`; amount 0 and amount `TOTAL_SUPPLY` pass (for clean
string representations) while `TOTAL_SUPPLY + 1` fails. -/
theorem amount_check_characterisation
    (reg : Registry) (t : Handler) (exceptions : List String)
    (H : List Nat → List Nat) (ed : List Nat → List Nat → List Nat → Bool)
    (total : Int) (slotOf : Int → Int) (nowSlot : Int)
    (trs : Trs) (s : Account) (requester : Option Account)
    (hreg : reg trs.type = some t)
    (hpk : s.publicKey = trs.senderPublicKey)
    (haddr : trs.senderId.toUpper = s.address.toUpper)
    (hreqn : trs.requesterPublicKey = none)
    (hsig : Transaction.verifySignature H ed reg trs trs.senderPublicKey trs.signature
      = .ok true)
    (hsec : s.secondSignature = false)
    (hsigs : trs.signatures = none)
    (hfee : t.calculateFee trs s ≠ 0) (hfeeq : trs.fee = t.calculateFee trs s)
    (hhv : t.verify trs s ≠ some "Invalid transaction amount") :
    ((Transaction.verify reg exceptions H ed total slotOf nowSlot trs (some s) requester).1
        = .err "Invalid transaction amount"
      ↔ amountCheckFails (total : ℚ) (trs.amount : ℚ) (jsIntStr trs.amount) = true) ∧
    (∀ (v : ℚ) (str : String),
      amountCheckFails (total : ℚ) v str = true
        ↔ (v < 0 ∨ (total : ℚ) < v ∨ str.toList.contains '.' = true ∨ str.toList.contains 'e' = true)) ∧
    ((0 : ℚ) ≤ (total : ℚ) → ∀ str, str.toList.contains '.' = false → str.toList.contains 'e' = false →
      amountCheckFails (total : ℚ) 0 str = false
      ∧ amountCheckFails (total : ℚ) (total : ℚ) str = false
      ∧ amountCheckFails (total : ℚ) ((total : ℚ) + 1) str = true) := by
  refine ⟨?_, ?_, ?_⟩
  · rw [verify_no_requester_reduces reg t exceptions H ed total slotOf nowSlot trs s
      requester hreg hpk haddr hreqn hsig hsec hsigs]
    exact verifyTail_amount_err t total slotOf nowSlot trs s hfee hfeeq hhv
  · intro v str
    simp [amountCheckFails, or_assoc]
  · intro ht str h1 h2
    have h1m : '.' ∉ str.data := by simpa using h1
    have h2m : 'e' ∉ str.data := by simpa using h2
    exact ⟨by simp [amountCheckFails, h1m, h2m, not_lt.mpr ht],
      by simp [amountCheckFails, h1m, h2m, not_lt.mpr ht],
      by simp [amountCheckFails, h1m, h2m, lt_add_one]⟩

/-- C7 witness: the characterisation at a concrete transaction and the
boundary values 0, `TOTAL_SUPPLY` and `TOTAL_SUPPLY + 1` for the Lisk
total supply. -/
theorem amount_check_characterisation_witness :
    ((Transaction.verify (regOf handlerC7) [] hZero edTrue 10999999991000000
        (fun _ => 0) 0 trsC7 (some baseAccount) none).1
        = .err "Invalid transaction amount"
      ↔ amountCheckFails ((10999999991000000 : Int) : ℚ) ((trsC7.amount : Int) : ℚ)
          (jsIntStr trsC7.amount) = true) ∧
    amountCheckFails ((10999999991000000 : Int) : ℚ) 0 "0" = false ∧
    amountCheckFails ((10999999991000000 : Int) : ℚ) ((10999999991000000 : Int) : ℚ)
      "10999999991000000" = false ∧
    amountCheckFails ((10999999991000000 : Int) : ℚ) (((10999999991000000 : Int) : ℚ) + 1)
      "10999999991000001" = true := by
  have h := amount_check_characterisation (regOf handlerC7) handlerC7 [] hZero edTrue
    10999999991000000 (fun _ => 0) 0 trsC7 baseAccount none rfl rfl rfl rfl
    (by decide) rfl rfl (by decide) rfl (by decide)
  have hpos : (0 : ℚ) ≤ ((10999999991000000 : Int) : ℚ) := by norm_num
  exact ⟨h.1, (h.2.2 hpos "0" (by decide) (by decide)).1,
    (h.2.2 hpos "10999999991000000" (by decide) (by decide)).2.1,
    (h.2.2 hpos "10999999991000001" (by decide) (by decide)).2.2⟩

/-- The verify tail never changes the sender it is given. -/
theorem verifyTail_snd (t : Handler) (total : Int) (slotOf : Int → Int)
    (nowSlot : Int) (trs : Trs) (s : Account) :
    (Transaction.verifyTail t total slotOf nowSlot trs s).2 = some s := by
  simp only [Transaction.verifyTail]
  split
  · rfl
  split
  · rfl
  split
  · rfl
  split <;> rfl

/-- One `verify` call with a requester appends the sender public key to
the sender's own multisignature list (checks 1–8 passing). -/
theorem verify_requester_push
    (reg : Registry) (t : Handler) (exceptions : List String)
    (H : List Nat → List Nat) (ed : List Nat → List Nat → List Nat → Bool)
    (total : Int) (slotOf : Int → Int) (nowSlot : Int)
    (trs : Trs) (s : Account) (r : String) (ms : List String)
    (hreg : reg trs.type = some t)
    (hpk : s.publicKey = trs.senderPublicKey)
    (haddr : trs.senderId.toUpper = s.address.toUpper)
    (hr : trs.requesterPublicKey = some r) (hrne : r ≠ "")
    (hms : s.multisignatures = some ms) (hmsne : ms ≠ [])
    (hmem : r ∈ ms)
    (hsig : Transaction.verifySignature H ed reg trs r trs.signature = .ok true)
    (hsigs : trs.signatures = none) :
    (Transaction.verify reg exceptions H ed total slotOf nowSlot trs (some s) none).2
      = some { s with multisignatures := some (ms ++ [trs.senderPublicKey]) } := by
  have hbeq : (r == "") = false := beq_eq_false_iff_ne.mpr hrne
  have hlen : ms.length ≠ 0 := fun hzero => hmsne (List.length_eq_zero.mp hzero)
  simp [Transaction.verify, hreg, hpk, haddr, hr, hms, hmem, hsig, hsigs, falsyStr,
    hbeq, hlen, verifyTail_snd]

/-- C10: when a requester public key is present and the sender's
multisignature list is non-empty (and checks 1–8 pass), `verify` pushes
`trs.senderPublicKey` onto the sender account's own multisignature list —
the account is mutated, regardless of the outcome of the remaining checks —
and a second such `verify` call grows the list again. -/
theorem verify_mutates_sender_multisignatures
    (reg : Registry) (t : Handler) (exceptions : List String)
    (H : List Nat → List Nat) (ed : List Nat → List Nat → List Nat → Bool)
    (total : Int) (slotOf : Int → Int) (nowSlot : Int)
    (trs : Trs) (s : Account) (r : String) (ms : List String)
    (hreg : reg trs.type = some t)
    (hpk : s.publicKey = trs.senderPublicKey)
    (haddr : trs.senderId.toUpper = s.address.toUpper)
    (hr : trs.requesterPublicKey = some r) (hrne : r ≠ "")
    (hms : s.multisignatures = some ms) (hmsne : ms ≠ [])
    (hmem : r ∈ ms)
    (hsig : Transaction.verifySignature H ed reg trs r trs.signature = .ok true)
    (hsigs : trs.signatures = none) :
    (Transaction.verify reg exceptions H ed total slotOf nowSlot trs (some s) none).2
      = some { s with multisignatures := some (ms ++ [trs.senderPublicKey]) } ∧
    (Transaction.verify reg exceptions H ed total slotOf nowSlot trs
        (some { s with multisignatures := some (ms ++ [trs.senderPublicKey]) }) none).2
      = some { s with
          multisignatures := some (ms ++ [trs.senderPublicKey] ++ [trs.senderPublicKey]) } := by
  refine ⟨verify_requester_push reg t exceptions H ed total slotOf nowSlot trs s r ms
    hreg hpk haddr hr hrne hms hmsne hmem hsig hsigs, ?_⟩
  exact verify_requester_push reg t exceptions H ed total slotOf nowSlot trs
    { s with multisignatures := some (ms ++ [trs.senderPublicKey]) } r
    (ms ++ [trs.senderPublicKey]) hreg hpk haddr hr hrne rfl (by simp)
    (by simp [hmem]) hsig hsigs

/-- C10 witness: the mutation at a concrete sender with multisignature
list `["rr"]`, twice. -/
theorem verify_mutates_sender_multisignatures_witness :
    (Transaction.verify (regOf trivHandler) [] hZero edTrue 10999999991000000
        (fun _ => 0) 0 trsC10 (some senderC10) none).2
      = some { senderC10 with multisignatures := some ["rr", "aa"] } ∧
    (Transaction.verify (regOf trivHandler) [] hZero edTrue 10999999991000000
        (fun _ => 0) 0 trsC10
        (some { senderC10 with multisignatures := some ["rr", "aa"] }) none).2
      = some { senderC10 with multisignatures := some ["rr", "aa", "aa"] } :=
  verify_mutates_sender_multisignatures (regOf trivHandler) trivHandler [] hZero edTrue
    10999999991000000 (fun _ => 0) 0 trsC10 senderC10 "rr" ["rr"] rfl rfl rfl rfl
    (by decide) rfl (by decide) (by decide) (by decide) rfl

end Lisk
